import Mathlib

/-!
Formal model of the wordgrid leaderboard backend (src/server/main.py).

The server exposes two routes:
  GET  /leaderboard/<date>  (get_leaderboard)
  POST /leaderboard         (add_score)
backed by a MongoDB collection.  We embed the request handlers as pure
functions over an explicit store (a list of stored documents), modelling
the Python/JSON value domain, the semantics of the Python operations the
handlers use (the membership operator, subscription, isinstance, len),
and the MongoDB operations find/sort/insert_one used by the handlers.
-/

/-- JSON values as parsed by Flask request.get_json into Python values.
A JSON object becomes a Python dict, modelled as an association list
(keys unique in any value produced by a JSON parser); a float carries its
literal text (its numeric value is never inspected by the program). -/
inductive Json where
  | null : Json
  | bool : Bool → Json
  | int : Int → Json
  | float : String → Json
  | str : String → Json
  | arr : List Json → Json
  | obj : List (String × Json) → Json

/-- A document in the MongoDB collection: an internal identifier (the _id
Mongo assigns at insertion) together with the fields of the inserted
document. -/
structure StoredDoc where
  oid : Nat
  fields : List (String × Json)

/-- Python isinstance(x, str). -/
def pyIsStr : Json → Bool
  | .str _ => true
  | _ => false

/-- Python isinstance(x, int).  In Python, bool is a subclass of int, so
isinstance(True, int) is True; floats are not ints. -/
def pyIsInt : Json → Bool
  | .int _ => true
  | .bool _ => true
  | _ => false

/-- Whether the character list sub occurs as a prefix of the character
list s (Python str.startswith, used to model the in operator on str). -/
def charsPrefix : List Char → List Char → Bool
  | [], _ => true
  | _ :: _, [] => false
  | a :: as, b :: bs => a == b && charsPrefix as bs

/-- Whether sub occurs as a contiguous substring of s. -/
def charsSub (sub : List Char) : List Char → Bool
  | [] => charsPrefix sub []
  | b :: bs => charsPrefix sub (b :: bs) || charsSub sub bs

/-- Whether the dict kvs has the key k (Python dict key membership). -/
def hasKey (k : String) (kvs : List (String × Json)) : Bool :=
  kvs.any (fun kv => kv.1 == k)

/-- Semantics of the Python expression (k in data) where k is a string
literal: key membership for a dict, element membership for a list (a str
equals only an equal str), substring test for a str, and a TypeError
(modelled as .error) for values that support neither (None, bool, int,
float). -/
def pyInStr (k : String) : Json → Except Unit Bool
  | .obj kvs => .ok (hasKey k kvs)
  | .arr xs => .ok (xs.any (fun x => match x with | .str s => s == k | _ => false))
  | .str s => .ok (charsSub k.toList s.toList)
  | _ => .error ()

/-- Semantics of the Python expression data[k] where k is a string
literal: dict lookup (KeyError when absent), and a TypeError for every
non-dict value (list and str subscription require integer indices). -/
def pyIndex (data : Json) (k : String) : Except Unit Json :=
  match data with
  | .obj kvs =>
    match List.lookup k kvs with
    | some v => .ok v
    | none => .error ()
  | _ => .error ()

/-- Response body jsonify({"error": "Invalid data!"}). -/
def invalidDataBody : Json := .obj [("error", .str "Invalid data!")]

/-- Response body jsonify({"error": "Invalid data types!"}). -/
def invalidTypesBody : Json := .obj [("error", .str "Invalid data types!")]

/-- Response body jsonify({"error": "Name and date cannot be empty!"}). -/
def emptyNameDateBody : Json := .obj [("error", .str "Name and date cannot be empty!")]

/-- Response body jsonify({"error": "Name is too long!"}). -/
def nameTooLongBody : Json := .obj [("error", .str "Name is too long!")]

/-- Response body jsonify({"error": "Date is too long!"}). -/
def dateTooLongBody : Json := .obj [("error", .str "Date is too long!")]

/-- Response body jsonify({"message": "Score added successfully!"}). -/
def successBody : Json := .obj [("message", .str "Score added successfully!")]

/-- Outcome of a POST /leaderboard request: either an HTTP response
(status, JSON body) together with the state of the store afterwards, or
an unhandled Python exception (Flask turns it into a generic 500 server
error); an exception is raised before any insert, so the store is the
unchanged input store. -/
inductive HResult where
  | resp (status : Nat) (body : Json) (store : List StoredDoc)
  | err (store : List StoredDoc)

/-- The store after the request, whatever the outcome. -/
def HResult.storeOf : HResult → List StoredDoc
  | .resp _ _ st => st
  | .err st => st

/-- The HTTP status of the outcome, none for an unhandled exception. -/
def HResult.statusOf : HResult → Option Nat
  | .resp s _ _ => some s
  | .err _ => none

/-- The add_score handler (POST /leaderboard), translated line by line:

    data = request.get_json()
    if "name" in data and "score" in data and "date" in data:
        if (not isinstance(data["name"], str)
            or not isinstance(data["score"], int)
            or not isinstance(data["date"], str)):
            return jsonify({"error": "Invalid data types!"}), 400
        if data["name"] == "" or data["date"] == "":
            return jsonify({"error": "Name and date cannot be empty!"}), 400
        if len(data["name"]) > 50:
            return jsonify({"error": "Name is too long!"}), 400
        if len(data["date"]) > 10:
            return jsonify({"error": "Date is too long!"}), 400
        leaderboard_collection.insert_one(
            {"name": data["name"], "score": data["score"], "date": data["date"]})
        return jsonify({"message": "Score added successfully!"}), 201
    else:
        return jsonify({"error": "Invalid data!"}), 400

The and/or chains short-circuit left to right, and each membership test
or subscription may raise; subscription of a dict is deterministic, so
the repeated data[...] subscriptions are bound once.  insert_one appends
one document, to which Mongo assigns a fresh internal identifier
(modelled as the length of the store). -/
def add_score (store : List StoredDoc) (data : Json) : HResult :=
  match pyInStr "name" data with
  | .error _ => .err store
  | .ok false => .resp 400 invalidDataBody store
  | .ok true =>
  match pyInStr "score" data with
  | .error _ => .err store
  | .ok false => .resp 400 invalidDataBody store
  | .ok true =>
  match pyInStr "date" data with
  | .error _ => .err store
  | .ok false => .resp 400 invalidDataBody store
  | .ok true =>
  match pyIndex data "name" with
  | .error _ => .err store
  | .ok nv =>
  if !(pyIsStr nv) then .resp 400 invalidTypesBody store else
  match pyIndex data "score" with
  | .error _ => .err store
  | .ok sv =>
  if !(pyIsInt sv) then .resp 400 invalidTypesBody store else
  match pyIndex data "date" with
  | .error _ => .err store
  | .ok dv =>
  if !(pyIsStr dv) then .resp 400 invalidTypesBody store else
  match nv, dv with
  | .str ns, .str ds =>
    if ns == "" || ds == "" then .resp 400 emptyNameDateBody store
    else if ns.length > 50 then .resp 400 nameTooLongBody store
    else if ds.length > 10 then .resp 400 dateTooLongBody store
    else .resp 201 successBody
      (store ++ [{ oid := store.length
                 , fields := [("name", nv), ("score", sv), ("date", dv)] }])
  | _, _ => .err store

/-- The MongoDB query filter {"date": date}: a document matches when its
date field exists and equals the query string (BSON equality between a
string query value and a field is exact, case-sensitive string equality;
a missing or non-string field does not match). -/
def dateMatches (date : String) (d : StoredDoc) : Bool :=
  match List.lookup "date" d.fields with
  | some (.str s) => s == date
  | _ => false

/-- BSON type rank used by sort("score", 1) to order values of different
types (a missing field sorts before every present value).  Only the int
case is ever exercised on stores reachable through this API; the
relative order of the other types follows the BSON comparison order,
with float given a rank of its own since no stored float value is
ever compared. -/
def bsonRank : Option Json → Nat
  | none => 0
  | some .null => 2
  | some (.int _) => 3
  | some (.float _) => 4
  | some (.str _) => 5
  | some (.obj _) => 6
  | some (.arr _) => 7
  | some (.bool _) => 9

/-- The integer value of a score field, for comparison between two int
scores; values of any other type are ordered by bsonRank alone, so their
value component is irrelevant and set to 0. -/
def scoreVal : Option Json → Int
  | some (.int x) => x
  | _ => 0

/-- Comparison on the (optional) score field used by sort("score", 1):
by BSON type rank and, between two ints, by integer value. -/
def scoreKeyLe (a b : Option Json) : Bool :=
  decide (bsonRank a < bsonRank b) ||
    (decide (bsonRank a = bsonRank b) && decide (scoreVal a ≤ scoreVal b))

/-- Ordering on projected documents for sort("score", 1). -/
def docLe (d1 d2 : List (String × Json)) : Prop :=
  scoreKeyLe (List.lookup "score" d1) (List.lookup "score" d2) = true

instance : DecidableRel docLe := fun d1 d2 => by
  unfold docLe; infer_instance

/-- Result of a GET /leaderboard/<date> request: the HTTP status, the
returned list of documents (each an association list of fields, as
serialised by jsonify), and the store afterwards. -/
structure GetResult where
  status : Nat
  docs : List (List (String × Json))
  store : List StoredDoc

/-- The get_leaderboard handler (GET /leaderboard/<date>):

    leaderboard = list(
        leaderboard_collection.find({"date": date}, {"_id": 0}).sort("score", 1))
    return jsonify(leaderboard)

find selects the documents matching {"date": date}; the projection
{"_id": 0} drops the internal identifier and keeps every other field;
sort("score", 1) orders the results by ascending score.  Flask attaches
status 200 to a bare jsonify return.  The store is not modified. -/
def get_leaderboard (store : List StoredDoc) (date : String) : GetResult :=
  { status := 200
  , docs := List.insertionSort docLe
      ((store.filter (dateMatches date)).map StoredDoc.fields)
  , store := store }

example : pyIsInt (.bool true) = true := rfl
example : pyIsInt (.float "3.14") = false := rfl
example : pyInStr "name" .null = .error () := rfl
example : pyInStr "name" (.arr []) = .ok false := rfl
example : pyInStr "name" (.str "xnamey") = .ok true := rfl
example : pyIndex (.arr [.str "name"]) "name" = .error () := rfl

example :
    add_score [] (.obj [("name", .str "Al"), ("score", .int 10), ("date", .str "2024-01-01")]) =
      .resp 201 successBody
        [{ oid := 0
         , fields := [("name", .str "Al"), ("score", .int 10), ("date", .str "2024-01-01")] }] := by
  rfl

example :
    add_score [] (.obj [("name", .str "Al"), ("score", .str "10"), ("date", .str "2024-01-01")]) =
      .resp 400 invalidTypesBody [] := by
  rfl

example :
    add_score [] (.obj [("name", .str "Al"), ("score", .int 10)]) =
      .resp 400 invalidDataBody [] := by
  rfl

/-- Validation check 1 of add_score: all three fields present. -/
def fieldsPresent (kvs : List (String × Json)) : Bool :=
  hasKey "name" kvs && hasKey "score" kvs && hasKey "date" kvs

/-- Validation check 2 of add_score: name is text, score is an integer
in the sense of isinstance, date is text. -/
def typesOk (kvs : List (String × Json)) : Bool :=
  match List.lookup "name" kvs, List.lookup "score" kvs, List.lookup "date" kvs with
  | some nv, some sv, some dv => pyIsStr nv && pyIsInt sv && pyIsStr dv
  | _, _, _ => false

/-- Validation check 3 of add_score: name and date are non-empty. -/
def nonEmptyOk (kvs : List (String × Json)) : Bool :=
  match List.lookup "name" kvs, List.lookup "date" kvs with
  | some (.str n), some (.str d) => !(n == "") && !(d == "")
  | _, _ => false

/-- Validation check 4 of add_score: name has at most 50 characters. -/
def nameLenOk (kvs : List (String × Json)) : Bool :=
  match List.lookup "name" kvs with
  | some (.str n) => decide (n.length ≤ 50)
  | _ => false

/-- Validation check 5 of add_score: date has at most 10 characters. -/
def dateLenOk (kvs : List (String × Json)) : Bool :=
  match List.lookup "date" kvs with
  | some (.str d) => decide (d.length ≤ 10)
  | _ => false

/-- The document insert_one appends on a successful submission. -/
def insertedDoc (store : List StoredDoc) (nv sv dv : Json) : StoredDoc :=
  { oid := store.length, fields := [("name", nv), ("score", sv), ("date", dv)] }

theorem lookup_isSome_of_hasKey {k : String} {kvs : List (String × Json)}
    (h : hasKey k kvs = true) : ∃ v, List.lookup k kvs = some v := by
  induction kvs with
  | nil => simp [hasKey] at h
  | cons a t ih =>
    rcases a with ⟨ka, va⟩
    by_cases hk : ka = k
    · subst hk
      exact ⟨va, by simp [List.lookup]⟩
    · have hk2 : (k == ka) = false := by
        simp [beq_iff_eq]; exact fun e => hk e.symm
      have h2 : hasKey k t = true := by
        simp [hasKey] at h ⊢
        rcases h with h | h
        · exact absurd h hk
        · simpa [hasKey] using h
      rcases ih h2 with ⟨v, hv⟩
      exact ⟨v, by simp [List.lookup, hk2, hv]⟩

theorem hasKey_of_lookup {k : String} {kvs : List (String × Json)} {v : Json}
    (h : List.lookup k kvs = some v) : hasKey k kvs = true := by
  induction kvs with
  | nil => simp [List.lookup] at h
  | cons a t ih =>
    rcases a with ⟨ka, va⟩
    by_cases hk : ka = k
    · simp [hasKey, hk]
    · have hk2 : (k == ka) = false := by
        simp [beq_iff_eq]; exact fun e => hk e.symm
      simp [List.lookup, hk2] at h
      have := ih h
      simp [hasKey] at this ⊢
      exact Or.inr (by simpa [hasKey] using this)

/-- When the presence check fails, add_score answers 400 Invalid data
and leaves the store unchanged. -/
theorem add_score_obj_notPresent (store : List StoredDoc)
    (kvs : List (String × Json)) (h : fieldsPresent kvs = false) :
    add_score store (.obj kvs) = .resp 400 invalidDataBody store := by
  simp [fieldsPresent] at h
  cases h1 : hasKey "name" kvs with
  | false => simp [add_score, pyInStr, h1]
  | true =>
    cases h2 : hasKey "score" kvs with
    | false => simp [add_score, pyInStr, h1, h2]
    | true =>
      cases h3 : hasKey "date" kvs with
      | false => simp [add_score, pyInStr, h1, h2, h3]
      | true => simp [h1, h2, h3] at h

/-- When the presence check passes and the type check fails, add_score
answers 400 Invalid data types and leaves the store unchanged. -/
theorem add_score_obj_badTypes (store : List StoredDoc)
    (kvs : List (String × Json)) (hp : fieldsPresent kvs = true)
    (ht : typesOk kvs = false) :
    add_score store (.obj kvs) = .resp 400 invalidTypesBody store := by
  simp [fieldsPresent] at hp
  obtain ⟨⟨h1, h2⟩, h3⟩ := hp
  obtain ⟨nv, ln⟩ := lookup_isSome_of_hasKey h1
  obtain ⟨sv, ls⟩ := lookup_isSome_of_hasKey h2
  obtain ⟨dv, ld⟩ := lookup_isSome_of_hasKey h3
  simp [typesOk, ln, ls, ld] at ht
  cases hns : pyIsStr nv with
  | false => simp [add_score, pyInStr, pyIndex, h1, h2, h3, ln, hns]
  | true =>
    cases hsv : pyIsInt sv with
    | false => simp [add_score, pyInStr, pyIndex, h1, h2, h3, ln, ls, hns, hsv]
    | true =>
      cases hds : pyIsStr dv with
      | false => simp [add_score, pyInStr, pyIndex, h1, h2, h3, ln, ls, ld, hns, hsv, hds]
      | true => simp [hns, hsv, hds] at ht

/-- When presence and types pass and the non-emptiness check fails,
add_score answers 400 Name and date cannot be empty and leaves the store
unchanged. -/
theorem add_score_obj_emptyErr (store : List StoredDoc)
    (kvs : List (String × Json)) (hp : fieldsPresent kvs = true)
    (ht : typesOk kvs = true) (he : nonEmptyOk kvs = false) :
    add_score store (.obj kvs) = .resp 400 emptyNameDateBody store := by
  simp [fieldsPresent] at hp
  obtain ⟨⟨h1, h2⟩, h3⟩ := hp
  obtain ⟨nv, ln⟩ := lookup_isSome_of_hasKey h1
  obtain ⟨sv, ls⟩ := lookup_isSome_of_hasKey h2
  obtain ⟨dv, ld⟩ := lookup_isSome_of_hasKey h3
  simp [typesOk, ln, ls, ld] at ht
  obtain ⟨⟨hns, hsv⟩, hds⟩ := ht
  cases nv with
  | str n =>
    cases dv with
    | str d =>
      simp [nonEmptyOk, ln, ld] at he
      by_cases hn : n = ""
      · simp [add_score, pyInStr, pyIndex, h1, h2, h3, ln, ls, ld, hsv, pyIsStr, hn]
      · have hd : d = "" := he hn
        simp [add_score, pyInStr, pyIndex, h1, h2, h3, ln, ls, ld, hsv, pyIsStr, hd]
    | null => simp [pyIsStr] at hds
    | bool _ => simp [pyIsStr] at hds
    | int _ => simp [pyIsStr] at hds
    | float _ => simp [pyIsStr] at hds
    | arr _ => simp [pyIsStr] at hds
    | obj _ => simp [pyIsStr] at hds
  | null => simp [pyIsStr] at hns
  | bool _ => simp [pyIsStr] at hns
  | int _ => simp [pyIsStr] at hns
  | float _ => simp [pyIsStr] at hns
  | arr _ => simp [pyIsStr] at hns
  | obj _ => simp [pyIsStr] at hns

/-- When presence, types and non-emptiness pass and the name length
check fails, add_score answers 400 Name is too long and leaves the store
unchanged. -/
theorem add_score_obj_nameLenErr (store : List StoredDoc)
    (kvs : List (String × Json)) (hp : fieldsPresent kvs = true)
    (ht : typesOk kvs = true) (he : nonEmptyOk kvs = true)
    (h4 : nameLenOk kvs = false) :
    add_score store (.obj kvs) = .resp 400 nameTooLongBody store := by
  simp [fieldsPresent] at hp
  obtain ⟨⟨h1, h2⟩, h3⟩ := hp
  obtain ⟨nv, ln⟩ := lookup_isSome_of_hasKey h1
  obtain ⟨sv, ls⟩ := lookup_isSome_of_hasKey h2
  obtain ⟨dv, ld⟩ := lookup_isSome_of_hasKey h3
  simp [typesOk, ln, ls, ld] at ht
  obtain ⟨⟨hns, hsv⟩, hds⟩ := ht
  cases nv with
  | str n =>
    cases dv with
    | str d =>
      simp [nonEmptyOk, ln, ld] at he
      simp [nameLenOk, ln] at h4
      simp [add_score, pyInStr, pyIndex, h1, h2, h3, ln, ls, ld, hsv, pyIsStr,
        he.1, he.2, h4]
    | null => simp [pyIsStr] at hds
    | bool _ => simp [pyIsStr] at hds
    | int _ => simp [pyIsStr] at hds
    | float _ => simp [pyIsStr] at hds
    | arr _ => simp [pyIsStr] at hds
    | obj _ => simp [pyIsStr] at hds
  | null => simp [pyIsStr] at hns
  | bool _ => simp [pyIsStr] at hns
  | int _ => simp [pyIsStr] at hns
  | float _ => simp [pyIsStr] at hns
  | arr _ => simp [pyIsStr] at hns
  | obj _ => simp [pyIsStr] at hns

/-- When presence, types, non-emptiness and the name length check pass
and the date length check fails, add_score answers 400 Date is too long
and leaves the store unchanged. -/
theorem add_score_obj_dateLenErr (store : List StoredDoc)
    (kvs : List (String × Json)) (hp : fieldsPresent kvs = true)
    (ht : typesOk kvs = true) (he : nonEmptyOk kvs = true)
    (h4 : nameLenOk kvs = true) (h5 : dateLenOk kvs = false) :
    add_score store (.obj kvs) = .resp 400 dateTooLongBody store := by
  simp [fieldsPresent] at hp
  obtain ⟨⟨h1, h2⟩, h3⟩ := hp
  obtain ⟨nv, ln⟩ := lookup_isSome_of_hasKey h1
  obtain ⟨sv, ls⟩ := lookup_isSome_of_hasKey h2
  obtain ⟨dv, ld⟩ := lookup_isSome_of_hasKey h3
  simp [typesOk, ln, ls, ld] at ht
  obtain ⟨⟨hns, hsv⟩, hds⟩ := ht
  cases nv with
  | str n =>
    cases dv with
    | str d =>
      simp [nonEmptyOk, ln, ld] at he
      simp [nameLenOk, ln] at h4
      simp [dateLenOk, ld] at h5
      simp [add_score, pyInStr, pyIndex, h1, h2, h3, ln, ls, ld, hsv, pyIsStr,
        he.1, he.2, h4, h5]
    | null => simp [pyIsStr] at hds
    | bool _ => simp [pyIsStr] at hds
    | int _ => simp [pyIsStr] at hds
    | float _ => simp [pyIsStr] at hds
    | arr _ => simp [pyIsStr] at hds
    | obj _ => simp [pyIsStr] at hds
  | null => simp [pyIsStr] at hns
  | bool _ => simp [pyIsStr] at hns
  | int _ => simp [pyIsStr] at hns
  | float _ => simp [pyIsStr] at hns
  | arr _ => simp [pyIsStr] at hns
  | obj _ => simp [pyIsStr] at hns

/-- When every validation check passes, add_score appends exactly one
document, holding exactly the three submitted fields, and answers 201
Score added successfully. -/
theorem add_score_obj_success (store : List StoredDoc)
    (kvs : List (String × Json)) (n d : String) (sv : Json)
    (ln : List.lookup "name" kvs = some (.str n))
    (ls : List.lookup "score" kvs = some sv) (hsv : pyIsInt sv = true)
    (ld : List.lookup "date" kvs = some (.str d))
    (hn : n ≠ "") (hd : d ≠ "")
    (hln : n.length ≤ 50) (hld : d.length ≤ 10) :
    add_score store (.obj kvs) =
      .resp 201 successBody (store ++ [insertedDoc store (.str n) sv (.str d)]) := by
  have h1 := hasKey_of_lookup ln
  have h2 := hasKey_of_lookup ls
  have h3 := hasKey_of_lookup ld
  simp [add_score, pyInStr, pyIndex, h1, h2, h3, ln, ls, ld, hsv, pyIsStr,
    hn, hd, Nat.not_lt.mpr hln, Nat.not_lt.mpr hld, insertedDoc]

/-- Whether a Python value is a dict (a parsed JSON object). -/
def isObj : Json → Bool
  | .obj _ => true
  | _ => false

/-- On a body that is not a dict, add_score either raises an unhandled
TypeError (None, bool and numbers are not containers; lists and strings
that do contain all three keys fail at subscription) or, when one of the
three membership tests is false, returns 400 Invalid data; the store is
unchanged either way. -/
theorem add_score_not_obj (store : List StoredDoc) (body : Json)
    (h : isObj body = false) :
    add_score store body = .err store ∨
      add_score store body = .resp 400 invalidDataBody store := by
  cases body with
  | obj kvs => simp [isObj] at h
  | null => exact Or.inl rfl
  | bool b => exact Or.inl rfl
  | int i => exact Or.inl rfl
  | float f => exact Or.inl rfl
  | str s =>
    cases h1 : charsSub ['n', 'a', 'm', 'e'] s.data with
    | false => exact Or.inr (by simp [add_score, pyInStr, h1])
    | true =>
      cases h2 : charsSub ['s', 'c', 'o', 'r', 'e'] s.data with
      | false => exact Or.inr (by simp [add_score, pyInStr, h1, h2])
      | true =>
        cases h3 : charsSub ['d', 'a', 't', 'e'] s.data with
        | false => exact Or.inr (by simp [add_score, pyInStr, h1, h2, h3])
        | true => exact Or.inl (by simp [add_score, pyInStr, pyIndex, h1, h2, h3])
  | arr xs =>
    cases h1 : xs.any (fun x => match x with | .str s => s == "name" | _ => false) with
    | false => exact Or.inr (by simp [add_score, pyInStr, h1])
    | true =>
      cases h2 : xs.any (fun x => match x with | .str s => s == "score" | _ => false) with
      | false => exact Or.inr (by simp [add_score, pyInStr, h1, h2])
      | true =>
        cases h3 : xs.any (fun x => match x with | .str s => s == "date" | _ => false) with
        | false => exact Or.inr (by simp [add_score, pyInStr, h1, h2, h3])
        | true => exact Or.inl (by simp [add_score, pyInStr, pyIndex, h1, h2, h3])

instance : IsTotal (List (String × Json)) docLe := by
  constructor
  intro a b
  unfold docLe scoreKeyLe
  simp only [Bool.or_eq_true, Bool.and_eq_true, decide_eq_true_eq]
  omega

instance : IsTrans (List (String × Json)) docLe := by
  constructor
  intro a b c hab hbc
  unfold docLe scoreKeyLe at hab hbc ⊢
  simp only [Bool.or_eq_true, Bool.and_eq_true, decide_eq_true_eq] at hab hbc ⊢
  omega

/-- get_leaderboard answers 200 and does not touch the store. -/
theorem get_leaderboard_status_store (store : List StoredDoc) (date : String) :
    (get_leaderboard store date).status = 200 ∧
      (get_leaderboard store date).store = store :=
  ⟨rfl, rfl⟩

/-- The documents get_leaderboard returns are a permutation of the
projections (internal identifier dropped) of exactly the stored
documents whose date field equals the requested date. -/
theorem get_leaderboard_perm (store : List StoredDoc) (date : String) :
    List.Perm (get_leaderboard store date).docs
      ((store.filter (dateMatches date)).map StoredDoc.fields) :=
  List.perm_insertionSort docLe _

/-- The documents get_leaderboard returns are sorted by the score
comparison. -/
theorem get_leaderboard_sorted (store : List StoredDoc) (date : String) :
    List.Sorted docLe (get_leaderboard store date).docs :=
  List.sorted_insertionSort docLe _

/-- Complete case analysis of add_score on a dict body: either some
validation check fails and the result is a 400 response with the store
unchanged, or every check passes and the result is 201 with exactly one
document appended. -/
theorem add_score_obj_cases (store : List StoredDoc) (kvs : List (String × Json)) :
    (∃ e, add_score store (.obj kvs) = .resp 400 e store) ∨
    (∃ n sv d, List.lookup "name" kvs = some (.str n) ∧
      List.lookup "score" kvs = some sv ∧
      List.lookup "date" kvs = some (.str d) ∧
      pyIsInt sv = true ∧ n ≠ "" ∧ d ≠ "" ∧ n.length ≤ 50 ∧ d.length ≤ 10 ∧
      add_score store (.obj kvs) =
        .resp 201 successBody (store ++ [insertedDoc store (.str n) sv (.str d)])) := by
  cases hp : fieldsPresent kvs with
  | false => exact Or.inl ⟨_, add_score_obj_notPresent store kvs hp⟩
  | true =>
  cases ht : typesOk kvs with
  | false => exact Or.inl ⟨_, add_score_obj_badTypes store kvs hp ht⟩
  | true =>
  cases he : nonEmptyOk kvs with
  | false => exact Or.inl ⟨_, add_score_obj_emptyErr store kvs hp ht he⟩
  | true =>
  cases h4 : nameLenOk kvs with
  | false => exact Or.inl ⟨_, add_score_obj_nameLenErr store kvs hp ht he h4⟩
  | true =>
  cases h5 : dateLenOk kvs with
  | false => exact Or.inl ⟨_, add_score_obj_dateLenErr store kvs hp ht he h4 h5⟩
  | true =>
  right
  have hp2 := hp
  simp [fieldsPresent] at hp2
  obtain ⟨⟨h1, h2⟩, h3⟩ := hp2
  obtain ⟨nv, ln⟩ := lookup_isSome_of_hasKey h1
  obtain ⟨sv, ls⟩ := lookup_isSome_of_hasKey h2
  obtain ⟨dv, ld⟩ := lookup_isSome_of_hasKey h3
  have ht2 := ht
  simp [typesOk, ln, ls, ld] at ht2
  obtain ⟨⟨hns, hsv⟩, hds⟩ := ht2
  cases nv with
  | str n =>
    cases dv with
    | str d =>
      have he2 := he
      simp [nonEmptyOk, ln, ld] at he2
      have h42 := h4
      simp [nameLenOk, ln] at h42
      have h52 := h5
      simp [dateLenOk, ld] at h52
      exact ⟨n, sv, d, ln, ls, ld, hsv, he2.1, he2.2, h42, h52,
        add_score_obj_success store kvs n d sv ln ls hsv ld he2.1 he2.2 h42 h52⟩
    | null => simp [pyIsStr] at hds
    | bool _ => simp [pyIsStr] at hds
    | int _ => simp [pyIsStr] at hds
    | float _ => simp [pyIsStr] at hds
    | arr _ => simp [pyIsStr] at hds
    | obj _ => simp [pyIsStr] at hds
  | null => simp [pyIsStr] at hns
  | bool _ => simp [pyIsStr] at hns
  | int _ => simp [pyIsStr] at hns
  | float _ => simp [pyIsStr] at hns
  | arr _ => simp [pyIsStr] at hns
  | obj _ => simp [pyIsStr] at hns

/-- C1 (counterexample): a request whose score is the boolean true is
not rejected by the type check: isinstance(True, int) holds in Python,
so add_score accepts it with 201 and inserts a document whose score is
the boolean, refuting the claim that a boolean score yields a 400
invalid-data-types error with nothing inserted. -/
theorem add_score_accepts_bool_score :
    add_score [] (.obj [("name", Json.str "Al"), ("score", Json.bool true),
        ("date", Json.str "2024-01-01")]) =
      .resp 201 successBody
        [{ oid := 0
         , fields := [("name", Json.str "Al"), ("score", Json.bool true),
             ("date", Json.str "2024-01-01")] }] ∧
    (add_score [] (.obj [("name", Json.str "Al"), ("score", Json.bool true),
        ("date", Json.str "2024-01-01")])).statusOf = some 201 ∧
    (add_score [] (.obj [("name", Json.str "Al"), ("score", Json.bool true),
        ("date", Json.str "2024-01-01")])).storeOf.length = 1 :=
  ⟨rfl, rfl, rfl⟩

/-- C1 (amended): on a body with all three fields present, the request
is rejected with 400 Invalid data types and nothing inserted exactly
when one of the fields fails its isinstance check (name text, score
integer, date text) — where, as in Python, the integer check also
accepts booleans, so a boolean score passes; floats and strings for
score are rejected.  When all three isinstance checks pass, the type
check is passed and the request proceeds to the later checks. -/
theorem add_score_type_check (store : List StoredDoc) (kvs : List (String × Json))
    (nv sv dv : Json)
    (ln : List.lookup "name" kvs = some nv)
    (ls : List.lookup "score" kvs = some sv)
    (ld : List.lookup "date" kvs = some dv) :
    (¬(pyIsStr nv = true ∧ pyIsInt sv = true ∧ pyIsStr dv = true) →
      add_score store (.obj kvs) = .resp 400 invalidTypesBody store) ∧
    ((pyIsStr nv = true ∧ pyIsInt sv = true ∧ pyIsStr dv = true) →
      (add_score store (.obj kvs) = .resp 400 emptyNameDateBody store ∨
       add_score store (.obj kvs) = .resp 400 nameTooLongBody store ∨
       add_score store (.obj kvs) = .resp 400 dateTooLongBody store ∨
       ∃ doc, add_score store (.obj kvs) = .resp 201 successBody (store ++ [doc]))) := by
  have hp : fieldsPresent kvs = true := by
    simp [fieldsPresent, hasKey_of_lookup ln, hasKey_of_lookup ls, hasKey_of_lookup ld]
  constructor
  · intro hno
    have ht : typesOk kvs = false := by
      cases htv : typesOk kvs with
      | false => rfl
      | true =>
        simp [typesOk, ln, ls, ld] at htv
        exact absurd ⟨htv.1.1, htv.1.2, htv.2⟩ hno
    exact add_score_obj_badTypes store kvs hp ht
  · rintro ⟨hns, hsv, hds⟩
    have ht : typesOk kvs = true := by simp [typesOk, ln, ls, ld, hns, hsv, hds]
    cases he : nonEmptyOk kvs with
    | false => exact Or.inl (add_score_obj_emptyErr store kvs hp ht he)
    | true =>
    cases h4 : nameLenOk kvs with
    | false => exact Or.inr (Or.inl (add_score_obj_nameLenErr store kvs hp ht he h4))
    | true =>
    cases h5 : dateLenOk kvs with
    | false => exact Or.inr (Or.inr (Or.inl (add_score_obj_dateLenErr store kvs hp ht he h4 h5)))
    | true =>
    cases nv with
    | str n =>
      cases dv with
      | str d =>
        have he2 := he
        simp [nonEmptyOk, ln, ld] at he2
        have h42 := h4
        simp [nameLenOk, ln] at h42
        have h52 := h5
        simp [dateLenOk, ld] at h52
        exact Or.inr (Or.inr (Or.inr ⟨_,
          add_score_obj_success store kvs n d sv ln ls hsv ld he2.1 he2.2 h42 h52⟩))
      | null => simp [pyIsStr] at hds
      | bool _ => simp [pyIsStr] at hds
      | int _ => simp [pyIsStr] at hds
      | float _ => simp [pyIsStr] at hds
      | arr _ => simp [pyIsStr] at hds
      | obj _ => simp [pyIsStr] at hds
    | null => simp [pyIsStr] at hns
    | bool _ => simp [pyIsStr] at hns
    | int _ => simp [pyIsStr] at hns
    | float _ => simp [pyIsStr] at hns
    | arr _ => simp [pyIsStr] at hns
    | obj _ => simp [pyIsStr] at hns

/-- Witness for the amended C1 theorem: a request with a float score is
rejected with 400 Invalid data types and the store stays empty. -/
theorem add_score_type_check_witness :
    add_score [] (.obj [("name", Json.str "Al"), ("score", Json.float "3.14"),
        ("date", Json.str "2024-01-01")]) = .resp 400 invalidTypesBody [] :=
  (add_score_type_check []
    [("name", Json.str "Al"), ("score", Json.float "3.14"), ("date", Json.str "2024-01-01")]
    (Json.str "Al") (Json.float "3.14") (Json.str "2024-01-01")
    rfl rfl rfl).1 (by decide)

/-- C2: add_score runs its five validation checks in the stated order —
presence of the three fields, types, non-emptiness of name and date,
name length at most 50, date length at most 10 — and for every dict
body, the first check that fails determines the 400 error returned. -/
theorem add_score_validation_order (store : List StoredDoc)
    (kvs : List (String × Json)) :
    (fieldsPresent kvs = false →
      add_score store (.obj kvs) = .resp 400 invalidDataBody store) ∧
    (fieldsPresent kvs = true → typesOk kvs = false →
      add_score store (.obj kvs) = .resp 400 invalidTypesBody store) ∧
    (fieldsPresent kvs = true → typesOk kvs = true → nonEmptyOk kvs = false →
      add_score store (.obj kvs) = .resp 400 emptyNameDateBody store) ∧
    (fieldsPresent kvs = true → typesOk kvs = true → nonEmptyOk kvs = true →
      nameLenOk kvs = false →
      add_score store (.obj kvs) = .resp 400 nameTooLongBody store) ∧
    (fieldsPresent kvs = true → typesOk kvs = true → nonEmptyOk kvs = true →
      nameLenOk kvs = true → dateLenOk kvs = false →
      add_score store (.obj kvs) = .resp 400 dateTooLongBody store) :=
  ⟨add_score_obj_notPresent store kvs,
   add_score_obj_badTypes store kvs,
   add_score_obj_emptyErr store kvs,
   add_score_obj_nameLenErr store kvs,
   add_score_obj_dateLenErr store kvs⟩

/-- Witness for the C2 theorem: a body missing date with a 51-character
name gets the generic invalid-data error, and a body with an empty name
of the right types gets the empty-name/date error, not a length
error. -/
theorem add_score_validation_order_witness :
    add_score [] (.obj [("name",
        Json.str "aaaaaaaaaaaaaaaaaaaaaaaaaaaaaaaaaaaaaaaaaaaaaaaaaaa"),
        ("score", Json.int 1)]) = .resp 400 invalidDataBody [] ∧
    add_score [] (.obj [("name", Json.str ""), ("score", Json.int 1),
        ("date", Json.str "2024-01-01")]) = .resp 400 emptyNameDateBody [] :=
  ⟨(add_score_validation_order []
      [("name", Json.str "aaaaaaaaaaaaaaaaaaaaaaaaaaaaaaaaaaaaaaaaaaaaaaaaaaa"),
       ("score", Json.int 1)]).1 rfl,
   (add_score_validation_order []
      [("name", Json.str ""), ("score", Json.int 1),
       ("date", Json.str "2024-01-01")]).2.2.1 rfl rfl rfl⟩

/-- C3: add_score is atomic on error: every dict body failing some
validation check produces a 400 response and leaves the store completely
unchanged. -/
theorem add_score_error_atomic (store : List StoredDoc)
    (kvs : List (String × Json))
    (h : ¬(fieldsPresent kvs = true ∧ typesOk kvs = true ∧ nonEmptyOk kvs = true ∧
      nameLenOk kvs = true ∧ dateLenOk kvs = true)) :
    ∃ e, add_score store (.obj kvs) = .resp 400 e store := by
  rcases add_score_obj_cases store kvs with he | hs
  · exact he
  · obtain ⟨n, sv, d, ln, ls, ld, hsv, hn, hd, hln, hld, _⟩ := hs
    have c1 : fieldsPresent kvs = true := by
      simp [fieldsPresent, hasKey_of_lookup ln, hasKey_of_lookup ls, hasKey_of_lookup ld]
    have c2 : typesOk kvs = true := by simp [typesOk, ln, ls, ld, pyIsStr, hsv]
    have c3 : nonEmptyOk kvs = true := by simp [nonEmptyOk, ln, ld, hn, hd]
    have c4 : nameLenOk kvs = true := by simp [nameLenOk, ln, hln]
    have c5 : dateLenOk kvs = true := by simp [dateLenOk, ld, hld]
    exact absurd ⟨c1, c2, c3, c4, c5⟩ h

/-- Witness for the C3 theorem: a submission with a 51-character name
gets a 400 response and the store stays empty. -/
theorem add_score_error_atomic_witness :
    ∃ e, add_score [] (.obj [("name",
        Json.str "aaaaaaaaaaaaaaaaaaaaaaaaaaaaaaaaaaaaaaaaaaaaaaaaaaa"),
        ("score", Json.int 2), ("date", Json.str "2024-01-01")]) = .resp 400 e [] :=
  add_score_error_atomic []
    [("name", Json.str "aaaaaaaaaaaaaaaaaaaaaaaaaaaaaaaaaaaaaaaaaaaaaaaaaaa"),
     ("score", Json.int 2), ("date", Json.str "2024-01-01")] (by decide)

/-- C4: every dict body passing all five validation checks makes
add_score append exactly one new document holding exactly the three
fields name, score and date with the submitted values (extra fields of
the body are discarded), and answer 201 with the success message. -/
theorem add_score_success_response (store : List StoredDoc)
    (kvs : List (String × Json)) (n d : String) (sv : Json)
    (ln : List.lookup "name" kvs = some (.str n))
    (ls : List.lookup "score" kvs = some sv) (hsv : pyIsInt sv = true)
    (ld : List.lookup "date" kvs = some (.str d))
    (hn : n ≠ "") (hd : d ≠ "")
    (hln : n.length ≤ 50) (hld : d.length ≤ 10) :
    add_score store (.obj kvs) =
      .resp 201 successBody
        (store ++ [{ oid := store.length
                   , fields := [("name", Json.str n), ("score", sv),
                       ("date", Json.str d)] }]) := by
  simpa [insertedDoc] using
    add_score_obj_success store kvs n d sv ln ls hsv ld hn hd hln hld

/-- Witness for the C4 theorem: a valid submission carrying an extra
field is stored without the extra field and acknowledged with 201. -/
theorem add_score_success_response_witness :
    add_score [] (.obj [("name", Json.str "Al"), ("score", Json.int 10),
        ("date", Json.str "2024-01-01"), ("extra", Json.null)]) =
      .resp 201 successBody
        [{ oid := 0
         , fields := [("name", Json.str "Al"), ("score", Json.int 10),
             ("date", Json.str "2024-01-01")] }] :=
  add_score_success_response []
    [("name", Json.str "Al"), ("score", Json.int 10),
     ("date", Json.str "2024-01-01"), ("extra", Json.null)]
    "Al" "2024-01-01" (Json.int 10) rfl rfl rfl rfl
    (by decide) (by decide) (by decide) (by decide)

/-- C7: submitting is not idempotent: a valid body submitted twice in
succession succeeds with 201 both times and appends one document each
time, leaving two stored records with identical fields. -/
theorem add_score_not_idempotent (store : List StoredDoc) (n d : String) (s : Int)
    (hn : n ≠ "") (hd : d ≠ "") (hln : n.length ≤ 50) (hld : d.length ≤ 10) :
    add_score store (.obj [("name", Json.str n), ("score", Json.int s),
        ("date", Json.str d)]) =
      .resp 201 successBody (store ++ [insertedDoc store (.str n) (.int s) (.str d)]) ∧
    add_score (store ++ [insertedDoc store (.str n) (.int s) (.str d)])
        (.obj [("name", Json.str n), ("score", Json.int s), ("date", Json.str d)]) =
      .resp 201 successBody
        ((store ++ [insertedDoc store (.str n) (.int s) (.str d)]) ++
          [insertedDoc (store ++ [insertedDoc store (.str n) (.int s) (.str d)])
            (.str n) (.int s) (.str d)]) ∧
    (insertedDoc (store ++ [insertedDoc store (.str n) (.int s) (.str d)])
        (.str n) (.int s) (.str d)).fields =
      (insertedDoc store (.str n) (.int s) (.str d)).fields ∧
    ((store ++ [insertedDoc store (.str n) (.int s) (.str d)]) ++
      [insertedDoc (store ++ [insertedDoc store (.str n) (.int s) (.str d)])
        (.str n) (.int s) (.str d)]).length = store.length + 2 := by
  refine ⟨add_score_obj_success store _ n d (.int s) rfl rfl rfl rfl hn hd hln hld,
    add_score_obj_success _ _ n d (.int s) rfl rfl rfl rfl hn hd hln hld, rfl, by simp⟩

/-- Witness for the C7 theorem at a concrete valid entry. -/
theorem add_score_not_idempotent_witness :
    add_score [] (.obj [("name", Json.str "Cy"), ("score", Json.int 7),
        ("date", Json.str "2024-01-02")]) =
      .resp 201 successBody ([] ++ [insertedDoc [] (.str "Cy") (.int 7) (.str "2024-01-02")]) ∧
    add_score ([] ++ [insertedDoc [] (.str "Cy") (.int 7) (.str "2024-01-02")])
        (.obj [("name", Json.str "Cy"), ("score", Json.int 7), ("date", Json.str "2024-01-02")]) =
      .resp 201 successBody
        (([] ++ [insertedDoc [] (.str "Cy") (.int 7) (.str "2024-01-02")]) ++
          [insertedDoc ([] ++ [insertedDoc [] (.str "Cy") (.int 7) (.str "2024-01-02")])
            (.str "Cy") (.int 7) (.str "2024-01-02")]) ∧
    (insertedDoc ([] ++ [insertedDoc [] (.str "Cy") (.int 7) (.str "2024-01-02")])
        (.str "Cy") (.int 7) (.str "2024-01-02")).fields =
      (insertedDoc [] (.str "Cy") (.int 7) (.str "2024-01-02")).fields ∧
    (([] ++ [insertedDoc [] (.str "Cy") (.int 7) (.str "2024-01-02")]) ++
      [insertedDoc ([] ++ [insertedDoc [] (.str "Cy") (.int 7) (.str "2024-01-02")])
        (.str "Cy") (.int 7) (.str "2024-01-02")]).length =
      ([] : List StoredDoc).length + 2 :=
  add_score_not_idempotent [] "Cy" "2024-01-02" 7
    (by decide) (by decide) (by decide) (by decide)

/-- C5: for every store and date, get_leaderboard answers 200, leaves
the store unchanged, and returns exactly the stored documents whose date
field equals the requested date under exact string equality — projected
to their fields with the internal identifier omitted — arranged so that
the integer scores appear in ascending order. -/
theorem get_leaderboard_spec (store : List StoredDoc) (date : String) :
    (get_leaderboard store date).status = 200 ∧
    (get_leaderboard store date).store = store ∧
    List.Perm (get_leaderboard store date).docs
      ((store.filter (dateMatches date)).map StoredDoc.fields) ∧
    (get_leaderboard store date).docs.Pairwise
      (fun r1 r2 => ∀ x y : Int, List.lookup "score" r1 = some (.int x) →
        List.lookup "score" r2 = some (.int y) → x ≤ y) := by
  refine ⟨rfl, rfl, get_leaderboard_perm store date, ?_⟩
  refine (get_leaderboard_sorted store date).imp ?_
  intro r1 r2 h x y hx hy
  unfold docLe scoreKeyLe at h
  rw [hx, hy] at h
  simp only [bsonRank, scoreVal, Bool.or_eq_true, Bool.and_eq_true,
    decide_eq_true_eq] at h
  omega

/-- C6: get_leaderboard never fails: it answers 200 for every store and
date, and when no stored document matches the date it returns the empty
list rather than an error. -/
theorem get_leaderboard_never_errors (store : List StoredDoc) (date : String) :
    (get_leaderboard store date).status = 200 ∧
    ((∀ d ∈ store, dateMatches date d = false) →
      (get_leaderboard store date).docs = []) := by
  refine ⟨rfl, fun h => ?_⟩
  have hf : store.filter (dateMatches date) = [] := by
    rw [List.filter_eq_nil_iff]
    intro a ha
    simp [h a ha]
  have hp := get_leaderboard_perm store date
  rw [hf] at hp
  simpa using hp

/-- Witness for the C6 theorem: querying a date with no entries returns
the empty list with status 200. -/
theorem get_leaderboard_never_errors_witness :
    (get_leaderboard [] "2024-01-01").status = 200 ∧
    (get_leaderboard [] "2024-01-01").docs = [] :=
  ⟨(get_leaderboard_never_errors [] "2024-01-01").1,
   (get_leaderboard_never_errors [] "2024-01-01").2 (by simp)⟩

/-- Structural equality between JSON values of which at least one is
scalar (not an array or object); used only to compare records against a
submitted entry, whose three values are scalars. -/
def flatBeq : Json → Json → Bool
  | .null, .null => true
  | .bool a, .bool b => a == b
  | .int a, .int b => a == b
  | .float a, .float b => a == b
  | .str a, .str b => a == b
  | _, _ => false

/-- Whether a returned record is exactly the submitted entry: the three
fields name, score, date in insertion order with the submitted
values. -/
def recordMatches (n : String) (sv : Json) (d : String) :
    List (String × Json) → Bool
  | [(k1, v1), (k2, v2), (k3, v3)] =>
    k1 == "name" && k2 == "score" && k3 == "date" &&
      flatBeq v1 (.str n) && flatBeq v2 sv && flatBeq v3 (.str d)
  | _ => false

theorem recordMatches_self (n : String) (sv : Json) (d : String)
    (hsv : pyIsInt sv = true) :
    recordMatches n sv d [("name", Json.str n), ("score", sv),
      ("date", Json.str d)] = true := by
  cases sv with
  | int x => simp [recordMatches, flatBeq]
  | bool b => simp [recordMatches, flatBeq]
  | null => simp [pyIsInt] at hsv
  | float _ => simp [pyIsInt] at hsv
  | str _ => simp [pyIsInt] at hsv
  | arr _ => simp [pyIsInt] at hsv
  | obj _ => simp [pyIsInt] at hsv

theorem dateMatches_insertedDoc (store : List StoredDoc) (n d : String) (sv : Json) :
    dateMatches d (insertedDoc store (.str n) sv (.str d)) = true := by
  simp [dateMatches, insertedDoc, List.lookup]

/-- C8 (counterexample): submitting the same valid entry twice (both
submissions succeed) makes the leaderboard for that date contain the
submitted entry twice, refuting that the query after every valid
submission contains the entry exactly once. -/
theorem leaderboard_duplicate_twice :
    (add_score ((add_score [] (.obj [("name", Json.str "Du"), ("score", Json.int 5),
        ("date", Json.str "2024-03-04")])).storeOf)
      (.obj [("name", Json.str "Du"), ("score", Json.int 5),
        ("date", Json.str "2024-03-04")])).statusOf = some 201 ∧
    (get_leaderboard ((add_score ((add_score [] (.obj [("name", Json.str "Du"),
        ("score", Json.int 5), ("date", Json.str "2024-03-04")])).storeOf)
      (.obj [("name", Json.str "Du"), ("score", Json.int 5),
        ("date", Json.str "2024-03-04")])).storeOf) "2024-03-04").docs.countP
      (recordMatches "Du" (Json.int 5) "2024-03-04") = 2 :=
  ⟨rfl, rfl⟩

/-- C8 (amended): after a valid submission, the leaderboard for the
submitted date contains the submitted entry with multiplicity exactly
one more than before the submission; in particular it contains the entry
exactly once when the entry was not on the leaderboard before. -/
theorem leaderboard_contains_submitted (store : List StoredDoc)
    (kvs : List (String × Json)) (n d : String) (sv : Json)
    (ln : List.lookup "name" kvs = some (.str n))
    (ls : List.lookup "score" kvs = some sv) (hsv : pyIsInt sv = true)
    (ld : List.lookup "date" kvs = some (.str d))
    (hn : n ≠ "") (hd : d ≠ "")
    (hln : n.length ≤ 50) (hld : d.length ≤ 10) :
    (get_leaderboard (add_score store (.obj kvs)).storeOf d).docs.countP
        (recordMatches n sv d) =
      (get_leaderboard store d).docs.countP (recordMatches n sv d) + 1 ∧
    ((get_leaderboard store d).docs.countP (recordMatches n sv d) = 0 →
      (get_leaderboard (add_score store (.obj kvs)).storeOf d).docs.countP
        (recordMatches n sv d) = 1) := by
  have hs := add_score_obj_success store kvs n d sv ln ls hsv ld hn hd hln hld
  have hst : (add_score store (.obj kvs)).storeOf =
      store ++ [insertedDoc store (.str n) sv (.str d)] := by
    rw [hs]
    rfl
  have key : ∀ st : List StoredDoc,
      (get_leaderboard st d).docs.countP (recordMatches n sv d) =
        ((st.filter (dateMatches d)).map StoredDoc.fields).countP
          (recordMatches n sv d) :=
    fun st => List.Perm.countP_eq _ (get_leaderboard_perm st d)
  have main : (get_leaderboard (add_score store (.obj kvs)).storeOf d).docs.countP
      (recordMatches n sv d) =
      (get_leaderboard store d).docs.countP (recordMatches n sv d) + 1 := by
    rw [hst, key, key, List.filter_append, List.map_append, List.countP_append]
    have hone : (List.filter (dateMatches d)
        [insertedDoc store (.str n) sv (.str d)]) =
        [insertedDoc store (.str n) sv (.str d)] := by
      simp [List.filter, dateMatches_insertedDoc]
    rw [hone]
    simp [insertedDoc, List.countP_cons, recordMatches_self n sv d hsv]
  exact ⟨main, fun h0 => by rw [main, h0]⟩

/-- Witness for the amended C8 theorem at a concrete submission on the
empty store. -/
theorem leaderboard_contains_submitted_witness :
    (get_leaderboard (add_score [] (.obj [("name", Json.str "Wi"),
        ("score", Json.int 3), ("date", Json.str "2024-06-07")])).storeOf
      "2024-06-07").docs.countP (recordMatches "Wi" (Json.int 3) "2024-06-07") =
      (get_leaderboard [] "2024-06-07").docs.countP
        (recordMatches "Wi" (Json.int 3) "2024-06-07") + 1 :=
  (leaderboard_contains_submitted []
    [("name", Json.str "Wi"), ("score", Json.int 3), ("date", Json.str "2024-06-07")]
    "Wi" "2024-06-07" (Json.int 3) rfl rfl rfl rfl
    (by decide) (by decide) (by decide) (by decide)).1

/-- A stored document satisfies the strict data-model invariant: a
non-empty name of at most 50 characters, a score that is an int value
(booleans not accepted), and a non-empty date of at most 10
characters. -/
def strictDocOK (fs : List (String × Json)) : Bool :=
  (match List.lookup "name" fs with
   | some (.str n) => !(n == "") && decide (n.length ≤ 50)
   | _ => false) &&
  (match List.lookup "score" fs with
   | some (.int _) => true
   | _ => false) &&
  (match List.lookup "date" fs with
   | some (.str dt) => !(dt == "") && decide (dt.length ≤ 10)
   | _ => false)

/-- Every document of the store satisfies the strict invariant. -/
def strictStoreOK (store : List StoredDoc) : Bool :=
  store.all (fun doc => strictDocOK doc.fields)

/-- A stored document satisfies the invariant the code actually
enforces: the score check is isinstance(·, int), which also accepts
booleans. -/
def docOK (fs : List (String × Json)) : Bool :=
  (match List.lookup "name" fs with
   | some (.str n) => !(n == "") && decide (n.length ≤ 50)
   | _ => false) &&
  (match List.lookup "score" fs with
   | some sv => pyIsInt sv
   | none => false) &&
  (match List.lookup "date" fs with
   | some (.str dt) => !(dt == "") && decide (dt.length ≤ 10)
   | _ => false)

/-- Every document of the store satisfies the enforced invariant. -/
def storeOK (store : List StoredDoc) : Bool :=
  store.all (fun doc => docOK doc.fields)

/-- C9 (counterexample): the strict every-stored-score-is-an-integer
invariant is not preserved by add_score: from the empty store, which
satisfies it, submitting a boolean score succeeds and the resulting
store violates the strict invariant (the stored score is a boolean). -/
theorem strict_invariant_not_preserved :
    strictStoreOK [] = true ∧
    add_score [] (.obj [("name", Json.str "Bk"), ("score", Json.bool true),
        ("date", Json.str "2024-05-06")]) =
      .resp 201 successBody
        [{ oid := 0
         , fields := [("name", Json.str "Bk"), ("score", Json.bool true),
             ("date", Json.str "2024-05-06")] }] ∧
    strictStoreOK
      [{ oid := 0
       , fields := [("name", Json.str "Bk"), ("score", Json.bool true),
           ("date", Json.str "2024-05-06")] }] = false :=
  ⟨rfl, rfl, rfl⟩

/-- C9 (amended): the invariant the code enforces — non-empty bounded
name and date, and a score accepted by isinstance(·, int), which accepts
ints and booleans — is preserved by every operation: add_score maps a
store satisfying it to a store satisfying it and either leaves the store
unchanged or appends exactly one document, and get_leaderboard never
modifies the store. -/
theorem store_invariant_preserved (store : List StoredDoc) (body : Json)
    (date : String) (h : storeOK store = true) :
    storeOK (add_score store body).storeOf = true ∧
    ((add_score store body).storeOf = store ∨
      ∃ doc, (add_score store body).storeOf = store ++ [doc]) ∧
    (get_leaderboard store date).store = store := by
  have main : storeOK (add_score store body).storeOf = true ∧
      ((add_score store body).storeOf = store ∨
        ∃ doc, (add_score store body).storeOf = store ++ [doc]) := ?_
  · exact ⟨main.1, main.2, rfl⟩
  cases hobj : isObj body with
  | false =>
    rcases add_score_not_obj store body hobj with h1 | h1 <;>
      rw [h1] <;> exact ⟨h, Or.inl rfl⟩
  | true =>
    cases body with
    | obj kvs =>
      rcases add_score_obj_cases store kvs with ⟨e, he⟩ | hs
      · rw [he]
        exact ⟨h, Or.inl rfl⟩
      · obtain ⟨n, sv, d, ln, ls, ld, hsv, hn, hd, hln, hld, hsucc⟩ := hs
        rw [hsucc]
        have hdoc : docOK (insertedDoc store (.str n) sv (.str d)).fields = true := by
          have : docOK (insertedDoc store (.str n) sv (.str d)).fields =
              ((!(n == "") && decide (n.length ≤ 50)) && pyIsInt sv &&
                (!(d == "") && decide (d.length ≤ 10))) := rfl
          rw [this]
          simp [hn, hd, hln, hld, hsv]
        constructor
        · show storeOK (store ++ [insertedDoc store (.str n) sv (.str d)]) = true
          simp only [storeOK, List.all_append] at h ⊢
          simp [show storeOK store = true from h, hdoc]
          intro x hx
          have := List.all_eq_true.mp h x hx
          simpa using this
        · exact Or.inr ⟨_, rfl⟩
    | null => simp [isObj] at hobj
    | bool _ => simp [isObj] at hobj
    | int _ => simp [isObj] at hobj
    | float _ => simp [isObj] at hobj
    | str _ => simp [isObj] at hobj
    | arr _ => simp [isObj] at hobj

/-- Witness for the amended C9 theorem on a concrete store and body. -/
theorem store_invariant_preserved_witness :
    storeOK (add_score [] (.obj [("name", Json.str "Al"), ("score", Json.int 10),
        ("date", Json.str "2024-01-01")])).storeOf = true ∧
    ((add_score [] (.obj [("name", Json.str "Al"), ("score", Json.int 10),
        ("date", Json.str "2024-01-01")])).storeOf = [] ∨
      ∃ doc, (add_score [] (.obj [("name", Json.str "Al"), ("score", Json.int 10),
        ("date", Json.str "2024-01-01")])).storeOf = [] ++ [doc]) ∧
    (get_leaderboard [] "2024-01-01").store = [] :=
  store_invariant_preserved [] (.obj [("name", Json.str "Al"), ("score", Json.int 10),
    ("date", Json.str "2024-01-01")]) "2024-01-01" rfl

/-- C10 (counterexample): a request body that is not a JSON object can
be rejected with the 400 invalid-data client error rather than an
unhandled server error: on the empty JSON array, the membership check
is simply false, so the handler reaches the else branch and returns
400 Invalid data. -/
theorem non_object_rejected_400 :
    isObj (Json.arr []) = false ∧
    add_score [] (Json.arr []) = .resp 400 invalidDataBody [] :=
  ⟨rfl, rfl⟩

/-- C10 (amended): on a body that is not a JSON object, add_score never
inserts anything and either fails with an unhandled TypeError (always
for null, booleans and numbers, which support neither membership nor
subscription; for arrays and strings when the three membership tests
pass but subscription by string raises) or, when a membership test is
false, returns the 400 Invalid data client error. -/
theorem add_score_non_object (store : List StoredDoc) (body : Json)
    (h : isObj body = false) :
    (add_score store body = .err store ∨
      add_score store body = .resp 400 invalidDataBody store) ∧
    (add_score store body).storeOf = store ∧
    add_score store Json.null = .err store := by
  rcases add_score_not_obj store body h with h1 | h1
  · exact ⟨Or.inl h1, by rw [h1]; rfl, rfl⟩
  · exact ⟨Or.inr h1, by rw [h1]; rfl, rfl⟩

/-- Witness for the amended C10 theorem at the JSON null body. -/
theorem add_score_non_object_witness :
    (add_score [] Json.null = .err [] ∨
      add_score [] Json.null = .resp 400 invalidDataBody []) ∧
    (add_score [] Json.null).storeOf = [] ∧
    add_score [] Json.null = .err [] :=
  add_score_non_object [] Json.null rfl

example :
    (get_leaderboard ((add_score ((add_score []
        (.obj [("name", Json.str "Al"), ("score", Json.int 10),
          ("date", Json.str "2024-01-01")])).storeOf)
      (.obj [("name", Json.str "Bo"), ("score", Json.int 5),
        ("date", Json.str "2024-01-01")])).storeOf) "2024-01-01").docs =
    [[("name", Json.str "Bo"), ("score", Json.int 5), ("date", Json.str "2024-01-01")],
     [("name", Json.str "Al"), ("score", Json.int 10), ("date", Json.str "2024-01-01")]] :=
  rfl
